import Mathlib

/-!
Shallow embedding of the Forge-AI client scripts (src/back_connect.js and
src/unnamed/part_000, two near-identical variants of the same script).

The chat controller state (current tab, per-tab history, transcript, text
input, image panels) is modelled as an explicit record; `sendMessage` is
modelled as the ordered list of primitive DOM/history/network actions the
source performs, folded over the state.  The network call is shallowly
embedded by passing the eventual fetch outcome as an argument.  The stats
poller's timer bookkeeping is modelled as an explicit timer-state record.
-/

/-- The two chat tabs. `data-switch` carries "design" or "website";
`currentChatType` defaults to "website" (back_connect.js line 5). -/
inductive ChatType
  | design
  | website
deriving DecidableEq

/-- The string value of a tab, as stored in `currentChatType` in the source. -/
def ChatType.str : ChatType → String
  | .design => "design"
  | .website => "website"

/-- An image returned by the backend: a tag (`type`) and a `url`
(spec sect. 3 ImageResult; consumed in displayDesignImages / displayWebsiteImage). -/
structure Image where
  type : String
  url : String
deriving DecidableEq

/-- The JSON body of a successful /generate-images response:
`data.images` and `data.type` (back_connect.js lines 152-165). -/
structure GenResponse where
  images : List Image
  type : String
deriving DecidableEq

/-- Author of a chat bubble: the `type` argument of addMessageToChat. -/
inductive MsgKind
  | user
  | ai
deriving DecidableEq

/-- One transcript entry, as built by addMessageToChat
(back_connect.js lines 183-197): text, author class, loading class. -/
structure ChatMsg where
  text : String
  kind : MsgKind
  loading : Bool
deriving DecidableEq

/-- One ChatHistory entry: `{userMessage, images}` pushed on success
(back_connect.js lines 168-171). -/
structure HistEntry where
  userMessage : String
  images : List Image
deriving DecidableEq

/-- The design panel's two image containers after displayDesignImages ran:
`logos` models the children of `.dapp__logos`, and `two` models the children
of the `.dapp__two` row that the function creates inside `.dapp__imgs`
(back_connect.js lines 219-274; `.dapp__imgs` holds exactly that one row). -/
structure DesignView where
  logos : List Image
  two : List Image
deriving DecidableEq

/-- The whole client state: tab, per-tab history (the `chatHistory` object
with its `design` and `website` arrays), transcript (children of
`.dapp__chat`), the text input's value, both image panels, and a log of the
POST /generate-images requests issued. -/
structure DappState where
  currentChatType : ChatType
  historyDesign : List HistEntry
  historyWebsite : List HistEntry
  transcript : List ChatMsg
  inputValue : String
  designView : DesignView
  websiteView : List Image
  requests : List (String × ChatType)
deriving DecidableEq

/-- The ChatHistory array for a tab (`chatHistory[type]`). -/
def histOf (s : DappState) : ChatType → List HistEntry
  | .design => s.historyDesign
  | .website => s.historyWebsite

/-- JavaScript `String.prototype.trim`: drop leading and trailing
whitespace (back_connect.js line 106 `input.value.trim()`). -/
def jsTrim (s : String) : String :=
  ⟨((s.data.dropWhile Char.isWhitespace).reverse.dropWhile Char.isWhitespace).reverse⟩

/-- The loading placeholder text (back_connect.js lines 122-124). -/
def loadingText (t : ChatType) : String :=
  if t = .design then "Generating logo and banner..."
  else "Generating website mockup..."

/-- The AI success caption (back_connect.js lines 159-161); for design it
interpolates `data.images.length`. -/
def successText (t : ChatType) (n : Nat) : String :=
  if t = .design then "✓ Successfully generated " ++ toString n ++ " images (logo + banner)"
  else "✓ Website mockup generated successfully!"

/-- The fixed AI failure caption (back_connect.js line 178). -/
def errorText : String := "✗ Error generating images. Please try again."

/-- The welcome message added by loadChatHistory (back_connect.js lines 313-317). -/
def welcomeText (t : ChatType) : String :=
  if t = .design then
    "👋 Hello! I can generate logo and banner images for your project. What would you like to create?"
  else
    "👋 Hello! I can generate website mockup designs. Describe your ideal website!"

/-- removeLoadingMessage (back_connect.js lines 200-206):
`document.querySelector` finds the first `._loading` message in document
order and removes it; if none exists, nothing happens. -/
def removeLoadingMessage : List ChatMsg → List ChatMsg
  | [] => []
  | m :: rest => if m.loading then rest else m :: removeLoadingMessage rest

/-- displayDesignImages (back_connect.js lines 219-274): clear `.dapp__logos`
and `.dapp__imgs`, create a fresh `.dapp__two` row inside `.dapp__imgs`, then
for each image append it to the logo slot if tagged "logo", to the row if
tagged "banner", and otherwise skip it. -/
def displayDesignImages (images : List Image) (_view : DesignView) : DesignView :=
  images.foldl
    (fun v img =>
      if img.type = "logo" then { v with logos := v.logos ++ [img] }
      else if img.type = "banner" then { v with two := v.two ++ [img] }
      else v)
    { logos := [], two := [] }

/-- displayWebsiteImage (back_connect.js lines 277-303): only when the list
is non-empty, clear `.dapp__website` and append an img for `images[0]`. -/
def displayWebsiteImage (images : List Image) (websiteView : List Image) : List Image :=
  match images with
  | [] => websiteView
  | first :: _ => [first]

/-- displayImages (back_connect.js lines 209-216): dispatch on the response's
`type` string. -/
def displayImages (images : List Image) (t : String) (s : DappState) : DappState :=
  if t = "design" then { s with designView := displayDesignImages images s.designView }
  else if t = "website" then { s with websiteView := displayWebsiteImage images s.websiteView }
  else s

/-- Outcome of the awaited fetch in sendMessage: a parsed 2xx JSON body, or
any failure (non-ok status or thrown exception), which the catch block
handles uniformly (back_connect.js lines 146-179). -/
inductive FetchResult
  | success (data : GenResponse)
  | failure
deriving DecidableEq

/-- chatHistory[t].push(e) (back_connect.js lines 168-171). -/
def pushHistory (t : ChatType) (e : HistEntry) (s : DappState) : DappState :=
  match t with
  | .design => { s with historyDesign := s.historyDesign ++ [e] }
  | .website => { s with historyWebsite := s.historyWebsite ++ [e] }

/-- The primitive effects sendMessage performs, in program order. -/
inductive UiAction
  | append (m : ChatMsg)
  | clearInput
  | fetchReq (userPrompt : String) (chatType : ChatType)
  | removeLoad
  | display (images : List Image) (t : String)
  | pushHist (t : ChatType) (e : HistEntry)
deriving DecidableEq

/-- State effect of each primitive action. -/
def applyAction (s : DappState) : UiAction → DappState
  | .append m => { s with transcript := s.transcript ++ [m] }
  | .clearInput => { s with inputValue := "" }
  | .fetchReq p t => { s with requests := s.requests ++ [(p, t)] }
  | .removeLoad => { s with transcript := removeLoadingMessage s.transcript }
  | .display imgs t => displayImages imgs t s
  | .pushHist t e => pushHistory t e s

/-- sendMessage (back_connect.js lines 104-180) as its ordered action trace:
trim the input; if empty, return with no effect; otherwise append the user
bubble, clear the input, append the loading placeholder, issue the POST,
and on the response either (success) remove the placeholder, append the
success caption, display the images and push the history entry, or
(failure) remove the placeholder and append the failure caption. -/
def sendMessageActions (s : DappState) (result : FetchResult) : List UiAction :=
  let userMessage := jsTrim s.inputValue
  if userMessage = "" then []
  else
    [UiAction.append ⟨userMessage, .user, false⟩,
     UiAction.clearInput,
     UiAction.append ⟨loadingText s.currentChatType, .ai, true⟩,
     UiAction.fetchReq userMessage s.currentChatType] ++
    (match result with
     | .success data =>
        [UiAction.removeLoad,
         UiAction.append ⟨successText s.currentChatType data.images.length, .ai, false⟩,
         UiAction.display data.images data.type,
         UiAction.pushHist s.currentChatType ⟨userMessage, data.images⟩]
     | .failure =>
        [UiAction.removeLoad,
         UiAction.append ⟨errorText, .ai, false⟩])

/-- One complete sendMessage invocation with fetch outcome `result`. -/
def sendMessage (s : DappState) (result : FetchResult) : DappState :=
  (sendMessageActions s result).foldl applyAction s

/-- loadChatHistory (back_connect.js lines 306-330): clear the transcript,
append the welcome message, then for each stored entry append the user
bubble and the recomputed success caption and re-display its images
(passing the tab string as the dispatch type).  The forEach callback is the
named step below. -/
def loadChatHistoryStep (t : ChatType) (st : DappState) (item : HistEntry) : DappState :=
  let st1 := { st with transcript :=
    st.transcript ++ [(⟨item.userMessage, .user, false⟩ : ChatMsg)] }
  let st2 := { st1 with transcript :=
    st1.transcript ++ [(⟨successText t item.images.length, .ai, false⟩ : ChatMsg)] }
  displayImages item.images t.str st2

def loadChatHistory (t : ChatType) (s : DappState) : DappState :=
  (histOf s t).foldl (loadChatHistoryStep t)
    { s with transcript := [⟨welcomeText t, .ai, false⟩] }

/-- A tab click (back_connect.js lines 29-49): set `currentChatType`,
toggle the panels, and reload the transcript from stored history. -/
def switchTab (t : ChatType) (s : DappState) : DappState :=
  loadChatHistory t { s with currentChatType := t }

/-- The module-level state at script load: empty histories, empty page
regions (back_connect.js lines 5-9). -/
def freshState (t : ChatType) : DappState :=
  { currentChatType := t, historyDesign := [], historyWebsite := [],
    transcript := [], inputValue := "", designView := ⟨[], []⟩,
    websiteView := [], requests := [] }

/-- The page state right after DOMContentLoaded: initializeImageDisplay runs
loadChatHistory(currentChatType) (back_connect.js lines 333-337). -/
def initState (t : ChatType) : DappState :=
  loadChatHistory t (freshState t)

/-- One session event: type a string into the input and invoke sendMessage,
whose fetch resolves with the event's outcome. -/
def sessionStep (s : DappState) (e : String × FetchResult) : DappState :=
  sendMessage { s with inputValue := e.1 } e.2

/-- A session on one tab: the fold of its events from the freshly loaded page. -/
def runSession (t : ChatType) (events : List (String × FetchResult)) : DappState :=
  events.foldl sessionStep (initState t)

/-- The transcript that loadChatHistory renders after the welcome message:
per entry, the user bubble then the success caption. -/
def renderHistory (t : ChatType) : List HistEntry → List ChatMsg
  | [] => []
  | e :: rest =>
      ⟨e.userMessage, .user, false⟩ ::
      ⟨successText t e.images.length, .ai, false⟩ :: renderHistory t rest

/-- The /stats JSON body (src/unnamed/part_000 lines 783-787). -/
structure StatsSnapshot where
  token_created : Int
  trading_volume : ℚ
  active_users : Int
deriving DecidableEq

/-- Outcome of the awaited fetch in fetchStats: parsed 2xx body, or any
failure (non-ok status or exception), handled uniformly by the catch block. -/
inductive StatsFetchResult
  | success (data : StatsSnapshot)
  | failure
deriving DecidableEq

/-- updateStatsDisplay (src/unnamed/part_000 lines 791-819): with at least
three `.counter__item` slots the displayed triple is replaced wholesale by
`stats` (the animations converge to the target values); with fewer slots it
warns and leaves the display alone. -/
def updateStatsDisplay (numCounterItems : Nat) (stats displayed : StatsSnapshot) :
    StatsSnapshot :=
  if 3 ≤ numCounterItems then stats else displayed

/-- fetchStats (src/unnamed/part_000 lines 766-789): forward the parsed body
on success; on any failure forward the fixed zeroed snapshot. -/
def fetchStats (numCounterItems : Nat) (r : StatsFetchResult)
    (displayed : StatsSnapshot) : StatsSnapshot :=
  match r with
  | .success data => updateStatsDisplay numCounterItems data displayed
  | .failure => updateStatsDisplay numCounterItems ⟨0, 0, 0⟩ displayed

/-- Timer bookkeeping for the stats poller: the ids handed out by
setInterval, the currently active interval timers, the `statsUpdateTimer`
variable, and a count of fetchStats invocations. -/
structure TimerState where
  nextId : Nat
  active : List Nat
  statsUpdateTimer : Option Nat
  fetches : Nat
deriving DecidableEq

/-- initializeStats (src/unnamed/part_000 lines 858-873): one immediate
fetchStats; clearInterval on the previously recorded timer if any; then
setInterval a new timer and record its id. -/
def initializeStats (s : TimerState) : TimerState :=
  let s1 : TimerState := { s with fetches := s.fetches + 1 }
  let s2 : TimerState :=
    match s1.statsUpdateTimer with
    | some id => { s1 with active := s1.active.erase id }
    | none => s1
  { s2 with
    active := s2.active ++ [s2.nextId]
    statsUpdateTimer := some s2.nextId
    nextId := s2.nextId + 1 }

/-- One interval elapsing: every active interval timer fires its callback,
and each firing runs fetchStats once (src/unnamed/part_000 lines 867-870). -/
def tick (s : TimerState) : TimerState :=
  { s with fetches := s.fetches + s.active.length }

/-- Script-load state: `statsUpdateTimer = null`, no timers
(src/unnamed/part_000 line 332). -/
def initialTimerState : TimerState := ⟨0, [], none, 0⟩

/-- Two-digit rendering of the fractional cents, as toFixed(2) prints them. -/
def twoDigits (n : Nat) : String := (if n < 10 then "0" else "") ++ toString n

/-- JavaScript `Number.prototype.toFixed(2)`: round to the nearest
hundredth (half up) and print with exactly two decimals. -/
def toFixed2 (q : ℚ) : String :=
  let cents : Int := ⌊q * 100 + 1/2⌋
  (if cents < 0 then "-" else "") ++
    toString (cents.natAbs / 100) ++ "." ++ twoDigits (cents.natAbs % 100)

/-- formatVolume, BNB variant (src/unnamed/part_000 lines 827-834). -/
def formatVolume (volume : ℚ) : String :=
  if volume ≥ 1000000 then toFixed2 (volume / 1000000) ++ "M BNB"
  else if volume ≥ 1000 then toFixed2 (volume / 1000) ++ "K BNB"
  else toFixed2 volume ++ " BNB"

/-- formatVolume, dollar variant (src/unnamed/part_000 lines 415-423). -/
def formatVolumeDollar (volume : ℚ) : String :=
  if volume ≥ 1000000 then "$" ++ toFixed2 (volume / 1000000) ++ "M"
  else if volume ≥ 1000 then "$" ++ toFixed2 (volume / 1000) ++ "K"
  else "$" ++ toFixed2 volume

/-! ### Projection lemmas -/

theorem histOf_set_transcript (s : DappState) (a : List ChatMsg) (ty : ChatType) :
    histOf { s with transcript := a } ty = histOf s ty := by
  cases ty <;> rfl

theorem histOf_set_input (s : DappState) (b : String) (ty : ChatType) :
    histOf { s with inputValue := b } ty = histOf s ty := by
  cases ty <;> rfl

theorem histOf_set_current (s : DappState) (t : ChatType) (ty : ChatType) :
    histOf { s with currentChatType := t } ty = histOf s ty := by
  cases ty <;> rfl

theorem histOf_update (s : DappState) (a : List ChatMsg) (b : String)
    (c : List (String × ChatType)) (ty : ChatType) :
    histOf { s with transcript := a, inputValue := b, requests := c } ty = histOf s ty := by
  cases ty <;> rfl

theorem displayImages_transcript (imgs : List Image) (t : String) (s : DappState) :
    (displayImages imgs t s).transcript = s.transcript := by
  unfold displayImages
  split
  · rfl
  · split <;> rfl

theorem displayImages_histOf (imgs : List Image) (t : String) (s : DappState)
    (ty : ChatType) : histOf (displayImages imgs t s) ty = histOf s ty := by
  unfold displayImages
  split
  · cases ty <;> rfl
  · split
    · cases ty <;> rfl
    · rfl

theorem displayImages_currentChatType (imgs : List Image) (t : String) (s : DappState) :
    (displayImages imgs t s).currentChatType = s.currentChatType := by
  unfold displayImages
  split
  · rfl
  · split <;> rfl

theorem displayImages_inputValue (imgs : List Image) (t : String) (s : DappState) :
    (displayImages imgs t s).inputValue = s.inputValue := by
  unfold displayImages
  split
  · rfl
  · split <;> rfl

theorem pushHistory_transcript (t : ChatType) (e : HistEntry) (s : DappState) :
    (pushHistory t e s).transcript = s.transcript := by
  cases t <;> rfl

theorem pushHistory_currentChatType (t : ChatType) (e : HistEntry) (s : DappState) :
    (pushHistory t e s).currentChatType = s.currentChatType := by
  cases t <;> rfl

theorem pushHistory_inputValue (t : ChatType) (e : HistEntry) (s : DappState) :
    (pushHistory t e s).inputValue = s.inputValue := by
  cases t <;> rfl

theorem histOf_pushHistory_same (t : ChatType) (e : HistEntry) (s : DappState) :
    histOf (pushHistory t e s) t = histOf s t ++ [e] := by
  cases t <;> rfl

theorem histOf_pushHistory_other (t ty : ChatType) (e : HistEntry) (s : DappState)
    (h : ty ≠ t) : histOf (pushHistory t e s) ty = histOf s ty := by
  cases t <;> cases ty <;> first | rfl | exact absurd rfl h

/-! ### The shape of one sendMessage invocation -/

theorem sendMessage_blank (s : DappState) (r : FetchResult)
    (h : jsTrim s.inputValue = "") : sendMessage s r = s := by
  simp [sendMessage, sendMessageActions, h]

theorem sendMessageActions_blank (s : DappState) (r : FetchResult)
    (h : jsTrim s.inputValue = "") : sendMessageActions s r = [] := by
  simp [sendMessageActions, h]

theorem sendMessage_success_eq (s : DappState) (d : GenResponse)
    (hne : jsTrim s.inputValue ≠ "") :
    sendMessage s (.success d) =
      pushHistory s.currentChatType ⟨jsTrim s.inputValue, d.images⟩
        (displayImages d.images d.type
          { s with
            transcript := removeLoadingMessage
              (s.transcript ++ [⟨jsTrim s.inputValue, .user, false⟩] ++
                [⟨loadingText s.currentChatType, .ai, true⟩]) ++
              [⟨successText s.currentChatType d.images.length, .ai, false⟩]
            inputValue := ""
            requests := s.requests ++ [(jsTrim s.inputValue, s.currentChatType)] }) := by
  simp only [sendMessage, sendMessageActions, if_neg hne]
  rfl

theorem sendMessage_failure_eq (s : DappState) (hne : jsTrim s.inputValue ≠ "") :
    sendMessage s .failure =
      { s with
        transcript := removeLoadingMessage
          (s.transcript ++ [⟨jsTrim s.inputValue, .user, false⟩] ++
            [⟨loadingText s.currentChatType, .ai, true⟩]) ++
          [⟨errorText, .ai, false⟩]
        inputValue := ""
        requests := s.requests ++ [(jsTrim s.inputValue, s.currentChatType)] } := by
  simp only [sendMessage, sendMessageActions, if_neg hne]
  rfl

theorem removeLoadingMessage_append (xs ys : List ChatMsg)
    (h : ∀ m ∈ xs, m.loading = false) :
    removeLoadingMessage (xs ++ ys) = xs ++ removeLoadingMessage ys := by
  induction xs with
  | nil => rfl
  | cons m rest ih =>
      have hm : m.loading = false := h m (List.mem_cons_self m rest)
      simp only [List.cons_append, removeLoadingMessage, hm, Bool.false_eq_true, if_false]
      exact congrArg (List.cons m) (ih fun x hx => h x (List.mem_cons_of_mem m hx))

theorem removeLoadingMessage_user_load (xs : List ChatMsg)
    (h : ∀ m ∈ xs, m.loading = false) (u : ChatMsg) (hu : u.loading = false)
    (l : ChatMsg) (hl : l.loading = true) :
    removeLoadingMessage (xs ++ [u] ++ [l]) = xs ++ [u] := by
  have hall : ∀ m ∈ xs ++ [u], m.loading = false := by
    intro m hm
    rcases List.mem_append.1 hm with hm | hm
    · exact h m hm
    · simp only [List.mem_singleton] at hm
      exact hm ▸ hu
  rw [removeLoadingMessage_append (xs ++ [u]) [l] hall]
  simp [removeLoadingMessage, hl]

theorem sendMessage_success_transcript (s : DappState) (d : GenResponse)
    (hne : jsTrim s.inputValue ≠ "")
    (hnl : ∀ m ∈ s.transcript, m.loading = false) :
    (sendMessage s (.success d)).transcript =
      s.transcript ++ [⟨jsTrim s.inputValue, .user, false⟩,
        ⟨successText s.currentChatType d.images.length, .ai, false⟩] := by
  rw [sendMessage_success_eq s d hne, pushHistory_transcript, displayImages_transcript]
  show removeLoadingMessage _ ++ _ = _
  rw [removeLoadingMessage_user_load s.transcript hnl _ rfl _ rfl]
  simp

theorem sendMessage_failure_transcript (s : DappState)
    (hne : jsTrim s.inputValue ≠ "")
    (hnl : ∀ m ∈ s.transcript, m.loading = false) :
    (sendMessage s .failure).transcript =
      s.transcript ++ [⟨jsTrim s.inputValue, .user, false⟩, ⟨errorText, .ai, false⟩] := by
  rw [sendMessage_failure_eq s hne]
  show removeLoadingMessage _ ++ _ = _
  rw [removeLoadingMessage_user_load s.transcript hnl _ rfl _ rfl]
  simp

theorem sendMessage_success_histOf_same (s : DappState) (d : GenResponse)
    (hne : jsTrim s.inputValue ≠ "") :
    histOf (sendMessage s (.success d)) s.currentChatType =
      histOf s s.currentChatType ++ [⟨jsTrim s.inputValue, d.images⟩] := by
  rw [sendMessage_success_eq s d hne, histOf_pushHistory_same, displayImages_histOf,
    histOf_update]

theorem sendMessage_success_histOf_other (s : DappState) (d : GenResponse)
    (hne : jsTrim s.inputValue ≠ "") (ty : ChatType) (h : ty ≠ s.currentChatType) :
    histOf (sendMessage s (.success d)) ty = histOf s ty := by
  rw [sendMessage_success_eq s d hne, histOf_pushHistory_other _ _ _ _ h,
    displayImages_histOf, histOf_update]

theorem sendMessage_failure_histOf (s : DappState)
    (hne : jsTrim s.inputValue ≠ "") (ty : ChatType) :
    histOf (sendMessage s .failure) ty = histOf s ty := by
  rw [sendMessage_failure_eq s hne, histOf_update]

theorem sendMessage_success_currentChatType (s : DappState) (d : GenResponse)
    (hne : jsTrim s.inputValue ≠ "") :
    (sendMessage s (.success d)).currentChatType = s.currentChatType := by
  rw [sendMessage_success_eq s d hne, pushHistory_currentChatType,
    displayImages_currentChatType]

theorem sendMessage_success_inputValue (s : DappState) (d : GenResponse)
    (hne : jsTrim s.inputValue ≠ "") :
    (sendMessage s (.success d)).inputValue = "" := by
  rw [sendMessage_success_eq s d hne, pushHistory_inputValue, displayImages_inputValue]

/-! ### Replay machinery -/

theorem renderHistory_append (t : ChatType) (h1 h2 : List HistEntry) :
    renderHistory t (h1 ++ h2) = renderHistory t h1 ++ renderHistory t h2 := by
  induction h1 with
  | nil => rfl
  | cons e rest ih => simp [renderHistory, ih]

theorem renderHistory_not_loading (t : ChatType) (l : List HistEntry) :
    ∀ m ∈ renderHistory t l, m.loading = false := by
  induction l with
  | nil => intro m hm; simp [renderHistory] at hm
  | cons e rest ih =>
      intro m hm
      simp only [renderHistory, List.mem_cons] at hm
      rcases hm with rfl | rfl | hm
      · rfl
      · rfl
      · exact ih m hm

theorem loadChatHistoryStep_transcript (t : ChatType) (st : DappState) (item : HistEntry) :
    (loadChatHistoryStep t st item).transcript =
      st.transcript ++ [⟨item.userMessage, .user, false⟩,
        ⟨successText t item.images.length, .ai, false⟩] := by
  simp only [loadChatHistoryStep, displayImages_transcript]
  simp

theorem loadChatHistoryStep_histOf (t : ChatType) (st : DappState) (item : HistEntry)
    (ty : ChatType) : histOf (loadChatHistoryStep t st item) ty = histOf st ty := by
  simp only [loadChatHistoryStep, displayImages_histOf]
  rw [histOf_set_transcript, histOf_set_transcript]

theorem loadChatHistoryStep_currentChatType (t : ChatType) (st : DappState)
    (item : HistEntry) :
    (loadChatHistoryStep t st item).currentChatType = st.currentChatType := by
  simp only [loadChatHistoryStep, displayImages_currentChatType]

theorem loadChatHistory_fold_transcript (t : ChatType) (entries : List HistEntry)
    (st : DappState) :
    (entries.foldl (loadChatHistoryStep t) st).transcript =
      st.transcript ++ renderHistory t entries := by
  induction entries generalizing st with
  | nil => simp [renderHistory]
  | cons e rest ih =>
      simp only [List.foldl_cons]
      rw [ih, loadChatHistoryStep_transcript]
      simp [renderHistory]

theorem loadChatHistory_fold_histOf (t : ChatType) (entries : List HistEntry)
    (st : DappState) (ty : ChatType) :
    histOf (entries.foldl (loadChatHistoryStep t) st) ty = histOf st ty := by
  induction entries generalizing st with
  | nil => rfl
  | cons e rest ih =>
      simp only [List.foldl_cons]
      rw [ih, loadChatHistoryStep_histOf]

theorem loadChatHistory_fold_currentChatType (t : ChatType) (entries : List HistEntry)
    (st : DappState) :
    (entries.foldl (loadChatHistoryStep t) st).currentChatType = st.currentChatType := by
  induction entries generalizing st with
  | nil => rfl
  | cons e rest ih =>
      simp only [List.foldl_cons]
      rw [ih, loadChatHistoryStep_currentChatType]

theorem loadChatHistory_transcript (t : ChatType) (s : DappState) :
    (loadChatHistory t s).transcript =
      ⟨welcomeText t, .ai, false⟩ :: renderHistory t (histOf s t) := by
  unfold loadChatHistory
  rw [loadChatHistory_fold_transcript]
  simp

theorem loadChatHistory_histOf (t : ChatType) (s : DappState) (ty : ChatType) :
    histOf (loadChatHistory t s) ty = histOf s ty := by
  unfold loadChatHistory
  rw [loadChatHistory_fold_histOf, histOf_set_transcript]

theorem loadChatHistory_currentChatType (t : ChatType) (s : DappState) :
    (loadChatHistory t s).currentChatType = s.currentChatType := by
  unfold loadChatHistory
  rw [loadChatHistory_fold_currentChatType]

theorem session_inv (t : ChatType) (events : List (String × FetchResult)) :
    ∀ s : DappState,
      (∀ e ∈ events, jsTrim e.1 ≠ "" → ∃ d, e.2 = FetchResult.success d) →
      s.currentChatType = t →
      s.transcript = ⟨welcomeText t, .ai, false⟩ :: renderHistory t (histOf s t) →
      (events.foldl sessionStep s).currentChatType = t ∧
      (events.foldl sessionStep s).transcript =
        ⟨welcomeText t, .ai, false⟩ ::
          renderHistory t (histOf (events.foldl sessionStep s) t) := by
  induction events with
  | nil => intro s _ hc ht; exact ⟨hc, ht⟩
  | cons e rest ih =>
      intro s hok hc ht
      simp only [List.foldl_cons]
      have hok' : ∀ e ∈ rest, jsTrim e.1 ≠ "" → ∃ d, e.2 = FetchResult.success d :=
        fun x hx => hok x (List.mem_cons_of_mem e hx)
      by_cases hne : jsTrim e.1 = ""
      · have hblank : sessionStep s e = { s with inputValue := e.1 } :=
          sendMessage_blank _ _ hne
        rw [hblank]
        refine ih _ hok' hc ?_
        rw [histOf_set_input]
        exact ht
      · obtain ⟨d, hd⟩ := hok e (List.mem_cons_self e rest) hne
        have hnl : ∀ m ∈ s.transcript, m.loading = false := by
          rw [ht]
          intro m hm
          rcases List.mem_cons.1 hm with rfl | hm
          · rfl
          · exact renderHistory_not_loading t _ m hm
        have hstep : sessionStep s e = sendMessage { s with inputValue := e.1 } e.2 := rfl
        rw [hstep, hd]
        set s1 : DappState := { s with inputValue := e.1 } with hs1
        have hs1ne : jsTrim s1.inputValue ≠ "" := hne
        have hs1c : s1.currentChatType = t := hc
        have hs1nl : ∀ m ∈ s1.transcript, m.loading = false := hnl
        refine ih _ hok' ?_ ?_
        · rw [sendMessage_success_currentChatType s1 d hs1ne]
          exact hs1c
        · rw [sendMessage_success_transcript s1 d hs1ne hs1nl]
          have hh : histOf (sendMessage s1 (FetchResult.success d)) t =
              histOf s1 t ++ [⟨jsTrim s1.inputValue, d.images⟩] := by
            have := sendMessage_success_histOf_same s1 d hs1ne
            rw [hs1c] at this
            exact this
          rw [hh, renderHistory_append]
          have hs1t : s1.transcript =
              ⟨welcomeText t, .ai, false⟩ :: renderHistory t (histOf s1 t) := by
            show s.transcript = _
            rw [histOf_set_input]
            exact ht
          rw [hs1t, hs1c]
          simp [renderHistory]

theorem histOf_freshState (t ty : ChatType) : histOf (freshState t) ty = [] := by
  cases ty <;> rfl

/-! ### Claim C1 -/

/-- Claim C1: for every input string whose trim is non-empty, one invocation
of sendMessage appends exactly one user-authored entry and exactly one AI
entry to the transcript — the success caption if the request succeeds, the
fixed failure caption otherwise — and appends at most one entry to
ChatHistory, doing so only on success; on any failure every ChatHistory
array is left unchanged.  (The transcript is assumed to hold no stale
loading placeholder, which is the case in every sequential session.) -/
theorem sendMessage_one_user_one_ai (s : DappState) (r : FetchResult)
    (hne : jsTrim s.inputValue ≠ "")
    (hnl : ∀ m ∈ s.transcript, m.loading = false) :
    (∀ d, r = FetchResult.success d →
      (sendMessage s r).transcript =
        s.transcript ++ [⟨jsTrim s.inputValue, .user, false⟩,
          ⟨successText s.currentChatType d.images.length, .ai, false⟩] ∧
      histOf (sendMessage s r) s.currentChatType =
        histOf s s.currentChatType ++ [⟨jsTrim s.inputValue, d.images⟩] ∧
      ∀ ty, ty ≠ s.currentChatType → histOf (sendMessage s r) ty = histOf s ty) ∧
    (r = FetchResult.failure →
      (sendMessage s r).transcript =
        s.transcript ++ [⟨jsTrim s.inputValue, .user, false⟩, ⟨errorText, .ai, false⟩] ∧
      ∀ ty, histOf (sendMessage s r) ty = histOf s ty) := by
  constructor
  · rintro d rfl
    exact ⟨sendMessage_success_transcript s d hne hnl,
      sendMessage_success_histOf_same s d hne,
      fun ty h => sendMessage_success_histOf_other s d hne ty h⟩
  · rintro rfl
    exact ⟨sendMessage_failure_transcript s hne hnl,
      fun ty => sendMessage_failure_histOf s hne ty⟩

/-- A concrete state with pending input, used to instantiate the theorems. -/
def witState1 : DappState := ⟨.design, [], [], [], " hello ", ⟨[], []⟩, [], []⟩

/-- A concrete successful design response. -/
def witResp : GenResponse := ⟨[⟨"logo", "a"⟩, ⟨"banner", "b"⟩], "design"⟩

theorem sendMessage_one_user_one_ai_witness :
    (sendMessage witState1 (FetchResult.success witResp)).transcript =
      witState1.transcript ++ [⟨jsTrim witState1.inputValue, .user, false⟩,
        ⟨successText witState1.currentChatType witResp.images.length, .ai, false⟩] ∧
    histOf (sendMessage witState1 (FetchResult.success witResp)) witState1.currentChatType =
      histOf witState1 witState1.currentChatType ++
        [⟨jsTrim witState1.inputValue, witResp.images⟩] ∧
    (sendMessage witState1 FetchResult.failure).transcript =
      witState1.transcript ++ [⟨jsTrim witState1.inputValue, .user, false⟩,
        ⟨errorText, .ai, false⟩] := by
  refine ⟨?_, ?_, ?_⟩
  · exact ((sendMessage_one_user_one_ai witState1 (.success witResp)
      (by decide) (by decide)).1 witResp rfl).1
  · exact ((sendMessage_one_user_one_ai witState1 (.success witResp)
      (by decide) (by decide)).1 witResp rfl).2.1
  · exact ((sendMessage_one_user_one_ai witState1 .failure
      (by decide) (by decide)).2 rfl).1

/-! ### Claim C2 -/

/-- Claim C2: for every input string that is empty or whitespace-only after
trimming, sendMessage performs no state mutation at all (transcript,
ChatHistory, input, panels and request log are untouched) and its action
trace is empty, so in particular no network request is issued. -/
theorem sendMessage_blank_noop (s : DappState) (r : FetchResult)
    (h : jsTrim s.inputValue = "") :
    sendMessage s r = s ∧ sendMessageActions s r = [] :=
  ⟨sendMessage_blank s r h, sendMessageActions_blank s r h⟩

/-- A concrete state whose pending input is whitespace-only. -/
def witBlank : DappState := ⟨.website, [], [], [], "   ", ⟨[], []⟩, [], []⟩

theorem sendMessage_blank_noop_witness :
    sendMessage witBlank FetchResult.failure = witBlank ∧
    sendMessageActions witBlank FetchResult.failure = [] :=
  sendMessage_blank_noop witBlank FetchResult.failure (by decide)

/-! ### Claim C3 -/

/-- Claim C3 fails as stated: in the session consisting of the single failed
send "hi" on the website tab, the session transcript holds the welcome
message, the user entry and the failure caption, but ChatHistory stored
nothing, so replaying it via switchTab yields only the welcome message. -/
theorem switchTab_replay_counterexample :
    (switchTab .website (runSession .website [("hi", FetchResult.failure)])).transcript ≠
      (runSession .website [("hi", FetchResult.failure)]).transcript := by
  decide

/-- Claim C3 (amended): for every ChatType and every single-tab session in
which each sendMessage invocation that passes the non-empty-trim check
succeeded, replaying the stored ChatHistory for that type via switchTab
reproduces exactly the sequence of transcript entries the original session
rendered; over such sessions the transcript is a pure function of the
stored history.  (Unamended the claim is false: a failed send renders a
failure caption that is never stored, see the counterexample.) -/
theorem switchTab_replay (t : ChatType) (events : List (String × FetchResult))
    (hok : ∀ e ∈ events, jsTrim e.1 ≠ "" → ∃ d, e.2 = FetchResult.success d) :
    (switchTab t (runSession t events)).transcript = (runSession t events).transcript := by
  have hinitc : (initState t).currentChatType = t := by
    rw [initState, loadChatHistory_currentChatType]
    rfl
  have hbase : histOf (initState t) t = [] := by
    rw [initState, loadChatHistory_histOf, histOf_freshState]
  have hinitt : (initState t).transcript =
      ⟨welcomeText t, .ai, false⟩ :: renderHistory t (histOf (initState t) t) := by
    rw [hbase, initState, loadChatHistory_transcript, histOf_freshState]
  obtain ⟨hc, htr⟩ := session_inv t events (initState t) hok hinitc hinitt
  unfold runSession
  rw [switchTab, loadChatHistory_transcript, histOf_set_current]
  exact htr.symm

theorem switchTab_replay_witness :
    (switchTab .website (runSession .website
      [("hello", FetchResult.success ⟨[⟨"website", "u"⟩], "website"⟩)])).transcript =
    (runSession .website
      [("hello", FetchResult.success ⟨[⟨"website", "u"⟩], "website"⟩)]).transcript := by
  apply switchTab_replay
  intro e he hne
  simp only [List.mem_singleton] at he
  subst he
  exact ⟨_, rfl⟩

/-! ### Claim C4 -/

/-- Claim C4: on every failure of the stats fetch (non-2xx response or
exception) and with the three counter slots present in the page, the
displayed snapshot becomes the fixed zeroed snapshot, regardless of the
previously displayed values. -/
theorem fetchStats_failure_zero (n : Nat) (prev : StatsSnapshot) (h : 3 ≤ n) :
    fetchStats n StatsFetchResult.failure prev = ⟨0, 0, 0⟩ := by
  simp [fetchStats, updateStatsDisplay, h]

theorem fetchStats_failure_zero_witness :
    fetchStats 3 StatsFetchResult.failure ⟨5, 7, 9⟩ = ⟨0, 0, 0⟩ :=
  fetchStats_failure_zero 3 ⟨5, 7, 9⟩ (by decide)

/-! ### Claim C5 -/

/-- The reachable poller states: either no timer was ever registered, or the
recorded handle is the unique active timer. -/
def timerInv (s : TimerState) : Prop :=
  (s.statsUpdateTimer = none ∧ s.active = []) ∨
  ∃ id, s.statsUpdateTimer = some id ∧ s.active = [id]

theorem initializeStats_active (s : TimerState) (h : timerInv s) :
    (initializeStats s).active = [s.nextId] ∧
    (initializeStats s).statsUpdateTimer = some s.nextId := by
  rcases h with ⟨h1, h2⟩ | ⟨id, h1, h2⟩ <;>
    simp [initializeStats, h1, h2]

theorem timerInv_initializeStats (s : TimerState) (h : timerInv s) :
    timerInv (initializeStats s) :=
  Or.inr ⟨s.nextId, (initializeStats_active s h).2, (initializeStats_active s h).1⟩

theorem timerInv_iterate (n : Nat) :
    timerInv ((initializeStats^[n]) initialTimerState) := by
  induction n with
  | zero => exact Or.inl ⟨rfl, rfl⟩
  | succ n ih =>
      rw [Function.iterate_succ_apply']
      exact timerInv_initializeStats _ ih

/-- Claim C5: after any sequence of initializeStats invocations at most one
stats timer is active — each re-invocation cancels the previously recorded
timer before registering a new one — and after at least one invocation
(in particular after two in succession) exactly one timer is active, so one
interval tick triggers exactly one fetch, never two. -/
theorem startPolling_single_timer (n : Nat) :
    ((initializeStats^[n]) initialTimerState).active.length ≤ 1 ∧
    ((initializeStats^[n + 1]) initialTimerState).active.length = 1 ∧
    (tick ((initializeStats^[n + 1]) initialTimerState)).fetches =
      ((initializeStats^[n + 1]) initialTimerState).fetches + 1 := by
  have hlen1 : ((initializeStats^[n + 1]) initialTimerState).active.length = 1 := by
    rw [Function.iterate_succ_apply']
    rcases initializeStats_active _ (timerInv_iterate n) with ⟨ha, _⟩
    rw [ha]
    rfl
  refine ⟨?_, ?_, ?_⟩
  · rcases timerInv_iterate n with ⟨_, ha⟩ | ⟨id, _, ha⟩ <;> rw [ha] <;> simp
  · exact hlen1
  · simp only [tick]
    rw [hlen1]

/-! ### Claim C6 -/

theorem displayDesignImages_foldl (images : List Image) (v0 : DesignView) :
    images.foldl
      (fun v img =>
        if img.type = "logo" then { v with logos := v.logos ++ [img] }
        else if img.type = "banner" then { v with two := v.two ++ [img] }
        else v) v0 =
      ⟨v0.logos ++ images.filter (fun i => i.type == "logo"),
       v0.two ++ images.filter (fun i => i.type == "banner")⟩ := by
  induction images generalizing v0 with
  | nil => simp
  | cons i rest ih =>
      simp only [List.foldl_cons, List.filter_cons]
      by_cases h1 : i.type = "logo"
      · rw [if_pos h1, ih]
        simp [h1]
      · by_cases h2 : i.type = "banner"
        · rw [if_neg h1, if_pos h2, ih]
          simp [h1, h2]
        · rw [if_neg h1, if_neg h2, ih]
          simp [h1, h2]

/-- Claim C6: rendering a design-type image sequence replaces the previous
contents of the logo slot and of the images slot: afterwards the logo slot
holds exactly the images tagged "logo" in order, the banner row holds
exactly the images tagged "banner" in order, and every other tag is
dropped; in particular the given three-image input places one image in the
logo slot, one in the banner row, and drops the third. -/
theorem displayDesignImages_spec :
    (∀ (images : List Image) (v : DesignView),
      displayDesignImages images v =
        ⟨images.filter (fun i => i.type == "logo"),
         images.filter (fun i => i.type == "banner")⟩) ∧
    displayDesignImages
        [⟨"logo", "a"⟩, ⟨"banner", "b"⟩, ⟨"other", "c"⟩]
        ⟨[⟨"logo", "old"⟩], [⟨"banner", "old2"⟩]⟩ =
      ⟨[⟨"logo", "a"⟩], [⟨"banner", "b"⟩]⟩ := by
  constructor
  · intro images v
    unfold displayDesignImages
    rw [displayDesignImages_foldl]
    rfl
  · decide

/-! ### Claim C7 -/

/-- Claim C7 fails as stated on the empty image sequence: the website panel
is not cleared (its two stale images survive), and afterwards it does not
contain exactly one image. -/
theorem displayWebsiteImage_empty_counterexample :
    displayWebsiteImage [] [⟨"website", "a"⟩, ⟨"website", "b"⟩] =
      [⟨"website", "a"⟩, ⟨"website", "b"⟩] ∧
    (displayWebsiteImage [] [⟨"website", "a"⟩, ⟨"website", "b"⟩]).length ≠ 1 := by
  decide

/-- Claim C7 (amended): for every NON-empty image sequence rendered with
type "website", the website panel is cleared and only the first image is
rendered; all later images are ignored and the panel afterwards contains
exactly that one image.  (For the empty sequence the clear-and-render step
is skipped entirely, so the original unrestricted claim is false.) -/
theorem displayWebsiteImage_first (first : Image) (rest panel : List Image)
    (s : DappState) :
    displayWebsiteImage (first :: rest) panel = [first] ∧
    (displayImages (first :: rest) "website" s).websiteView = [first] := by
  constructor
  · rfl
  · unfold displayImages
    rw [if_neg (by decide : ¬("website" : String) = "design"), if_pos rfl]
    rfl

/-! ### Claim C10 -/

/-- Claim C10: rendering the empty image sequence with type "website"
leaves the website panel — indeed the whole state — entirely unchanged:
the panel is not cleared and nothing is appended. -/
theorem displayWebsiteImage_empty_frame (panel : List Image) (s : DappState) :
    displayWebsiteImage [] panel = panel ∧ displayImages [] "website" s = s := by
  constructor
  · rfl
  · unfold displayImages
    rw [if_neg (by decide : ¬("website" : String) = "design"), if_pos rfl]
    rfl

/-! ### Claim C8 -/

theorem toFixed2_eq (q : ℚ) (n : ℤ) (h : (⌊q * 100 + 1/2⌋ : ℤ) = n) :
    toFixed2 q = (if n < 0 then "-" else "") ++
      toString (n.natAbs / 100) ++ "." ++ twoDigits (n.natAbs % 100) := by
  unfold toFixed2
  rw [h]

/-- Claim C8: formatVolume maps 999 to "999.00 BNB" ("$999.00" in the
dollar variant), 1500 to "1.50K BNB" ("$1.50K"), and 2500000 to
"2.50M BNB" ("$2.50M"); generally, values at least 1,000,000 are
abbreviated with an M suffix, values at least 1,000 with a K suffix, and
smaller values are printed unabbreviated with two decimal places. -/
theorem formatVolume_spec :
    formatVolume 999 = "999.00 BNB" ∧
    formatVolumeDollar 999 = "$999.00" ∧
    formatVolume 1500 = "1.50K BNB" ∧
    formatVolumeDollar 1500 = "$1.50K" ∧
    formatVolume 2500000 = "2.50M BNB" ∧
    formatVolumeDollar 2500000 = "$2.50M" ∧
    (∀ v : ℚ, v ≥ 1000000 →
      (∃ p, formatVolume v = p ++ "M BNB") ∧
      ∃ p, formatVolumeDollar v = "$" ++ p ++ "M") ∧
    (∀ v : ℚ, ¬ v ≥ 1000000 → v ≥ 1000 →
      (∃ p, formatVolume v = p ++ "K BNB") ∧
      ∃ p, formatVolumeDollar v = "$" ++ p ++ "K") ∧
    (∀ v : ℚ, ¬ v ≥ 1000000 → ¬ v ≥ 1000 →
      formatVolume v = toFixed2 v ++ " BNB" ∧
      formatVolumeDollar v = "$" ++ toFixed2 v) := by
  have h999 : toFixed2 999 = "999.00" := by
    rw [toFixed2_eq 999 99900 (by norm_num)]
    decide
  have h1500 : toFixed2 (1500 / 1000) = "1.50" := by
    rw [toFixed2_eq (1500 / 1000) 150 (by norm_num)]
    decide
  have h25 : toFixed2 (2500000 / 1000000) = "2.50" := by
    rw [toFixed2_eq (2500000 / 1000000) 250 (by norm_num)]
    decide
  refine ⟨?_, ?_, ?_, ?_, ?_, ?_, ?_, ?_, ?_⟩
  · unfold formatVolume
    rw [if_neg (by norm_num), if_neg (by norm_num), h999]
    decide
  · unfold formatVolumeDollar
    rw [if_neg (by norm_num), if_neg (by norm_num), h999]
    decide
  · unfold formatVolume
    rw [if_neg (by norm_num), if_pos (by norm_num), h1500]
    decide
  · unfold formatVolumeDollar
    rw [if_neg (by norm_num), if_pos (by norm_num), h1500]
    decide
  · unfold formatVolume
    rw [if_pos (by norm_num), h25]
    decide
  · unfold formatVolumeDollar
    rw [if_pos (by norm_num), h25]
    decide
  · intro v h1
    constructor
    · refine ⟨toFixed2 (v / 1000000), ?_⟩
      unfold formatVolume
      rw [if_pos h1]
    · refine ⟨toFixed2 (v / 1000000), ?_⟩
      unfold formatVolumeDollar
      rw [if_pos h1]
  · intro v h1 h2
    constructor
    · refine ⟨toFixed2 (v / 1000), ?_⟩
      unfold formatVolume
      rw [if_neg h1, if_pos h2]
    · refine ⟨toFixed2 (v / 1000), ?_⟩
      unfold formatVolumeDollar
      rw [if_neg h1, if_pos h2]
  · intro v h1 h2
    constructor
    · unfold formatVolume
      rw [if_neg h1, if_neg h2]
    · unfold formatVolumeDollar
      rw [if_neg h1, if_neg h2]

theorem formatVolume_spec_witness :
    (∃ p, formatVolume 5000000 = p ++ "M BNB") ∧
    (∃ p, formatVolume 2500 = p ++ "K BNB") ∧
    formatVolume 999 = toFixed2 999 ++ " BNB" := by
  obtain ⟨h1, h2, h3, h4, h5, h6, hM, hK, hS⟩ := formatVolume_spec
  exact ⟨(hM 5000000 (by norm_num)).1, (hK 2500 (by norm_num) (by norm_num)).1,
    (hS 999 (by norm_num) (by norm_num)).1⟩

/-! ### Claim C9 -/

/-- Claim C9: for every input whose trim is non-empty, sendMessage clears
the text input (sets it to the empty string) immediately after appending
the user entry and before issuing the network request — in the action
trace the clear directly follows the user append and strictly precedes the
fetch — and the input is still empty when the invocation completes; for
empty or whitespace-only input the input field is left unchanged. -/
theorem sendMessage_clears_input (s : DappState) (r : FetchResult) :
    (jsTrim s.inputValue ≠ "" →
      (∃ tail, sendMessageActions s r =
        UiAction.append ⟨jsTrim s.inputValue, .user, false⟩ ::
        UiAction.clearInput ::
        UiAction.append ⟨loadingText s.currentChatType, .ai, true⟩ ::
        UiAction.fetchReq (jsTrim s.inputValue) s.currentChatType :: tail) ∧
      (sendMessage s r).inputValue = "") ∧
    (jsTrim s.inputValue = "" → (sendMessage s r).inputValue = s.inputValue) := by
  constructor
  · intro hne
    constructor
    · cases r with
      | success d =>
          refine ⟨[UiAction.removeLoad,
            UiAction.append ⟨successText s.currentChatType d.images.length, .ai, false⟩,
            UiAction.display d.images d.type,
            UiAction.pushHist s.currentChatType ⟨jsTrim s.inputValue, d.images⟩], ?_⟩
          simp only [sendMessageActions, if_neg hne]
          rfl
      | failure =>
          refine ⟨[UiAction.removeLoad, UiAction.append ⟨errorText, .ai, false⟩], ?_⟩
          simp only [sendMessageActions, if_neg hne]
          rfl
    · cases r with
      | success d => exact sendMessage_success_inputValue s d hne
      | failure =>
          rw [sendMessage_failure_eq s hne]
  · intro h
    rw [sendMessage_blank s r h]

theorem sendMessage_clears_input_witness :
    (sendMessage witState1 FetchResult.failure).inputValue = "" ∧
    (sendMessage witBlank FetchResult.failure).inputValue = witBlank.inputValue ∧
    (∃ tail, sendMessageActions witState1 FetchResult.failure =
      UiAction.append ⟨jsTrim witState1.inputValue, .user, false⟩ ::
      UiAction.clearInput ::
      UiAction.append ⟨loadingText witState1.currentChatType, .ai, true⟩ ::
      UiAction.fetchReq (jsTrim witState1.inputValue) witState1.currentChatType :: tail) := by
  refine ⟨?_, ?_, ?_⟩
  · exact ((sendMessage_clears_input witState1 .failure).1 (by decide)).2
  · exact (sendMessage_clears_input witBlank .failure).2 (by decide)
  · exact ((sendMessage_clears_input witState1 .failure).1 (by decide)).1
